import Mathlib

/-!
# Verification of `lifeless` (Conway's Game of Life library)

Shallow embedding of the repository's source files:

* `src/cell.rs`   — the `Cell` enum and its negation (`impl Not for Cell`).
* `src/math.rs`   — the `SVec2` coordinate type, the `svec2` shorthand
  constructor, the unit translations `up/down/left/right`, the `Neighbors`
  record produced by `SVec2::neighbors`, and the `NeighborsIter` iterator.
* `src/grid.rs`   — the `Grid<W,H>` container, `state_next` (the Game of
  Life rule) and `step`.

Machine integers: `usize` components are modelled as `Nat`; the four unit
translations mirror Rust *debug-build* arithmetic, where overflow and
underflow panic.  A panicking computation is modelled as `none` of an
`Option`; `USIZE_MAX` is the bound of a 64-bit `usize`.
-/

namespace Lifeless

/-- `Cell` from `src/cell.rs`: a two-valued cell state, `Dead` by default. -/
inductive Cell where
  | Alive
  | Dead
deriving DecidableEq, Repr

/-- `Cell::is_alive` from `src/cell.rs`. -/
def Cell.is_alive : Cell → Bool
  | .Alive => true
  | .Dead => false

/-- `Cell::is_dead` from `src/cell.rs`: `!self.is_alive()`. -/
def Cell.is_dead (c : Cell) : Bool := ! c.is_alive

/-- `impl Not for Cell` from `src/cell.rs`: negation swaps the variants. -/
def Cell.not : Cell → Cell
  | .Alive => .Dead
  | .Dead => .Alive

/-- Largest value of a (64-bit) `usize`. -/
def USIZE_MAX : Nat := 2 ^ 64 - 1

/-- `SVec2` from `src/math.rs`: a vec2 with `usize` components. -/
structure SVec2 where
  x : Nat
  y : Nat
deriving DecidableEq, Repr

/-- Rust's `NonZeroUsize`: a `usize` known to be positive. -/
def NonZeroUsize : Type := {n : Nat // 0 < n}

/-- `NonZeroUsize::new`: `some` exactly on positive inputs. -/
def NonZeroUsize.new (n : Nat) : Option NonZeroUsize :=
  if h : 0 < n then some ⟨n, h⟩ else none

/-- `NonZeroUsize::get`. -/
def NonZeroUsize.get (n : NonZeroUsize) : Nat := n.1

/-- `SVec2::new` from `src/math.rs`: type-checked (nonzero) components. -/
def SVec2.new (x y : NonZeroUsize) : SVec2 :=
  { x := x.get, y := y.get }

/-- `svec2` from `src/math.rs`: shorthand constructor, panicking (`none`)
when an argument is zero. -/
def svec2 (x y : Nat) : Option SVec2 :=
  match NonZeroUsize.new x, NonZeroUsize.new y with
  | some x, some y => some (SVec2.new x y)
  | _, _ => none

/-- `SVec2::up`: `y - 1`, panicking (`none`) on underflow in debug builds. -/
def SVec2.up (v : SVec2) : Option SVec2 :=
  if v.y = 0 then none else some { x := v.x, y := v.y - 1 }

/-- `SVec2::down`: `y + 1`, panicking (`none`) on overflow in debug builds. -/
def SVec2.down (v : SVec2) : Option SVec2 :=
  if v.y = USIZE_MAX then none else some { x := v.x, y := v.y + 1 }

/-- `SVec2::left`: `x - 1`, panicking (`none`) on underflow in debug builds. -/
def SVec2.left (v : SVec2) : Option SVec2 :=
  if v.x = 0 then none else some { x := v.x - 1, y := v.y }

/-- `SVec2::right`: `x + 1`, panicking (`none`) on overflow in debug builds. -/
def SVec2.right (v : SVec2) : Option SVec2 :=
  if v.x = USIZE_MAX then none else some { x := v.x + 1, y := v.y }

/-- `Neighbors` from `src/math.rs`: eight optional neighbor positions,
`none` marking a direction clipped at the boundary. -/
structure Neighbors where
  top_left : Option SVec2
  top : Option SVec2
  top_right : Option SVec2
  right : Option SVec2
  bottom_right : Option SVec2
  bottom : Option SVec2
  bottom_left : Option SVec2
  left : Option SVec2
deriving DecidableEq, Repr

/-- One field of `SVec2::neighbors` (the `if_opt!` macro): when `skip`
holds the direction is clipped (the inner value is never evaluated),
otherwise the translated position is computed and a panic (`none`) in the
translation aborts the whole call. -/
def fieldOpt (skip : Prop) [Decidable skip] (v : Option SVec2) :
    Option (Option SVec2) :=
  if skip then some none else v.map some

/-- `SVec2::neighbors` from `src/math.rs`.  The boundary predicates are the
`pos!` macros: `L` is `x == 1`, `R` is `x == extents.x`, `T` is `y == 1`,
`B` is `y == extents.y`.  Fields are evaluated in declaration order; the
result is `none` when any evaluated translation panics. -/
def SVec2.neighbors (v extents : SVec2) : Option Neighbors := do
  let tl ← fieldOpt (v.y = 1 ∨ v.x = 1) (v.up.bind SVec2.left)
  let t ← fieldOpt (v.y = 1) v.up
  let tr ← fieldOpt (v.y = 1 ∨ v.x = extents.x) (v.up.bind SVec2.right)
  let r ← fieldOpt (v.x = extents.x) v.right
  let br ← fieldOpt (v.y = extents.y ∨ v.x = extents.x) (v.down.bind SVec2.right)
  let b ← fieldOpt (v.y = extents.y) v.down
  let bl ← fieldOpt (v.y = extents.y ∨ v.x = 1) (v.down.bind SVec2.left)
  let l ← fieldOpt (v.x = 1) v.left
  pure { top_left := tl, top := t, top_right := tr, right := r,
         bottom_right := br, bottom := b, bottom_left := bl, left := l }

/-- `NeighborsIter` from `src/math.rs`: a cursor over the eight fields. -/
structure NeighborsIter where
  neighbors : Neighbors
  index : Nat
deriving DecidableEq, Repr

/-- `impl IntoIterator for Neighbors`: iteration starts at index 0. -/
def Neighbors.into_iter (n : Neighbors) : NeighborsIter :=
  { neighbors := n, index := 0 }

/-- `NeighborsIter::get_current` from `src/math.rs`. -/
def NeighborsIter.get_current (it : NeighborsIter) : Option SVec2 :=
  match it.index with
  | 0 => it.neighbors.top_left
  | 1 => it.neighbors.top
  | 2 => it.neighbors.top_right
  | 3 => it.neighbors.right
  | 4 => it.neighbors.bottom_right
  | 5 => it.neighbors.bottom
  | 6 => it.neighbors.bottom_left
  | 7 => it.neighbors.left
  | _ => none

/-- The `while self.index < 8` loop of `NeighborsIter::next`, with explicit
fuel (the loop runs at most `8 - index` times). -/
def NeighborsIter.nextAux (n : Neighbors) : Nat → Nat → Option (SVec2 × NeighborsIter)
  | 0, _ => none
  | fuel + 1, i =>
    if i < 8 then
      match NeighborsIter.get_current { neighbors := n, index := i } with
      | some pos => some (pos, { neighbors := n, index := i + 1 })
      | none => NeighborsIter.nextAux n fuel (i + 1)
    else none

/-- `Iterator::next` for `NeighborsIter` from `src/math.rs`. -/
def NeighborsIter.next (it : NeighborsIter) : Option (SVec2 × NeighborsIter) :=
  NeighborsIter.nextAux it.neighbors (8 - it.index) it.index

/-- Collect every item the iterator will yield (fuel-bounded: the iterator
yields at most 8 items). -/
def NeighborsIter.toListAux : Nat → NeighborsIter → List SVec2
  | 0, _ => []
  | fuel + 1, it =>
    match it.next with
    | some (pos, it2) => pos :: NeighborsIter.toListAux fuel it2
    | none => []

/-- The full sequence of positions yielded by a `NeighborsIter`. -/
def NeighborsIter.toList (it : NeighborsIter) : List SVec2 :=
  NeighborsIter.toListAux 8 it

/-- The eight fields of a `Neighbors` in iteration order. -/
def Neighbors.fieldList (n : Neighbors) : List (Option SVec2) :=
  [n.top_left, n.top, n.top_right, n.right,
   n.bottom_right, n.bottom, n.bottom_left, n.left]

/-- The coordinate domain of the grid as used by `SVec2::neighbors`:
components range over `[1, extents.x] × [1, extents.y]`. -/
def SVec2.inBounds (extents p : SVec2) : Prop :=
  1 ≤ p.x ∧ p.x ≤ extents.x ∧ 1 ≤ p.y ∧ p.y ≤ extents.y

instance (extents p : SVec2) : Decidable (SVec2.inBounds extents p) := by
  unfold SVec2.inBounds; infer_instance

/-- The eight compass translations of a position, in iteration order
(top-left, top, top-right, right, bottom-right, bottom, bottom-left, left).
Components use truncated `Nat` subtraction; a clipped translation of an
in-bounds position is out of bounds either way. -/
def compassList (p : SVec2) : List SVec2 :=
  [{ x := p.x - 1, y := p.y - 1 }, { x := p.x, y := p.y - 1 },
   { x := p.x + 1, y := p.y - 1 }, { x := p.x + 1, y := p.y },
   { x := p.x + 1, y := p.y + 1 }, { x := p.x, y := p.y + 1 },
   { x := p.x - 1, y := p.y + 1 }, { x := p.x - 1, y := p.y }]

/-! ## The grid (`src/grid.rs`)

`src/grid.rs` is written against `Coord`, a 0-based tuple-struct coordinate
type re-exported by `src/lib.rs` as `math::Coord`; its definition (and the
neighbor enumeration it carries) is not among the provided sources — the
`src/math.rs` present instead holds the 1-based `SVec2`.  `Coord` is
therefore modelled from the spec below, and the grid operations are
translated from `src/grid.rs` on top of it. -/

/-- Modelled from the spec: the missing `Coord` coordinate type used by
`src/grid.rs` (`Coord(x, y)`, field `.0` is `x`, field `.1` is `y`) — "an
ordered pair of non-negative integers (x, y) representing a position within
a grid of fixed extents (W, H), x ∈ [0, W), y ∈ [0, H)". -/
structure Coord where
  x : Nat
  y : Nat
deriving DecidableEq, Repr

/-- Modelled from the spec: `Coord`'s neighbor enumeration — "the subset of
the 8 compass-direction neighbors (top-left, top, top-right, right,
bottom-right, bottom, bottom-left, left) that lie within
[0, extents.x) × [0, extents.y)", emitted in exactly that order, skipping
out-of-bounds directions. -/
def Coord.neighborsList (p extents : Coord) : List Coord :=
  List.filterMap id
    [if 0 < p.x ∧ 0 < p.y then some { x := p.x - 1, y := p.y - 1 } else none,
     if 0 < p.y then some { x := p.x, y := p.y - 1 } else none,
     if p.x + 1 < extents.x ∧ 0 < p.y then some { x := p.x + 1, y := p.y - 1 } else none,
     if p.x + 1 < extents.x then some { x := p.x + 1, y := p.y } else none,
     if p.x + 1 < extents.x ∧ p.y + 1 < extents.y then some { x := p.x + 1, y := p.y + 1 } else none,
     if p.y + 1 < extents.y then some { x := p.x, y := p.y + 1 } else none,
     if 0 < p.x ∧ p.y + 1 < extents.y then some { x := p.x - 1, y := p.y + 1 } else none,
     if 0 < p.x then some { x := p.x - 1, y := p.y } else none]

/-- `Grid<W, H>` from `src/grid.rs`: a `[[Cell; W]; H]` cell table and a
generation counter.  The fixed-size nested array is embedded as a function;
`cells y x` models `self.cells[y][x]`, meaningful for `y < H`, `x < W`
(no claim exercises the panic of an out-of-bounds array index). -/
structure Grid (W H : Nat) where
  cells : Nat → Nat → Cell
  generation : Nat

/-- `Grid::new` from `src/grid.rs`: all cells `Dead`, generation 0. -/
def Grid.new (W H : Nat) : Grid W H :=
  { cells := fun _ _ => Cell.Dead, generation := 0 }

/-- `impl Index<Coord> for Grid` from `src/grid.rs`:
`self.cells[index.1][index.0]`. -/
def Grid.cellAt {W H : Nat} (g : Grid W H) (index : Coord) : Cell :=
  g.cells index.y index.x

/-- The live-neighbor count inside `Grid::state_next`:
`coord.neighbors(Coord(W, H)).filter(|&coord| self[coord] == Cell::Alive).count()`. -/
def Grid.liveNeighborCount {W H : Nat} (g : Grid W H) (coord : Coord) : Nat :=
  ((coord.neighborsList { x := W, y := H }).filter
    (fun c => g.cellAt c == Cell.Alive)).length

/-- `Grid::state_next` from `src/grid.rs`: the B3/S23 rule
(`0 | 1 | 4.. => Dead, 2 => self[coord], 3 => Alive`). -/
def Grid.state_next {W H : Nat} (g : Grid W H) (coord : Coord) : Cell :=
  match g.liveNeighborCount coord with
  | 0 => Cell.Dead
  | 1 => Cell.Dead
  | 2 => g.cellAt coord
  | 3 => Cell.Alive
  | _ => Cell.Dead

/-- `Grid::step` from `src/grid.rs`: every position of the new table is
`state_next` of the *receiver* (`array::from_fn(|y| array::from_fn(|x|
self.state_next(Coord(x, y))))`), and the generation is incremented. -/
def Grid.step {W H : Nat} (g : Grid W H) : Grid W H :=
  { cells := fun y x => g.state_next { x := x, y := y },
    generation := g.generation + 1 }

/-- `impl IndexMut<Coord> for Grid` used as a write
(`grid[pos] = state`): overwrite one cell, leaving the rest and the
generation untouched. -/
def Grid.set {W H : Nat} (g : Grid W H) (index : Coord) (state : Cell) : Grid W H :=
  { cells := fun y x => if y = index.y ∧ x = index.x then state else g.cells y x,
    generation := g.generation }

/-- The spec's `toggle(pos)`: `set(pos, negate(cell_at(pos)))`. -/
def Grid.toggle {W H : Nat} (g : Grid W H) (pos : Coord) : Grid W H :=
  g.set pos (Cell.not (g.cellAt pos))

/-- `n` successive applications of `Grid::step`. -/
def Grid.stepIter {W H : Nat} (g : Grid W H) : Nat → Grid W H
  | 0 => g
  | n + 1 => (g.stepIter n).step

/-! ## Model validation

Concrete evaluations reproducing the repository's own unit tests
(`neighbors_iter_middle`, `neighbors_iter_peri` in `src/math.rs`, and
`state_next` in `src/grid.rs`). -/

example :
    (SVec2.neighbors { x := 2, y := 2 } { x := 3, y := 3 }).map
      (fun n => NeighborsIter.toList n.into_iter) =
    some [{ x := 1, y := 1 }, { x := 2, y := 1 }, { x := 3, y := 1 },
          { x := 3, y := 2 }, { x := 3, y := 3 }, { x := 2, y := 3 },
          { x := 1, y := 3 }, { x := 1, y := 2 }] := by decide

example :
    (SVec2.neighbors { x := 1, y := 1 } { x := 3, y := 3 }).map
      (fun n => NeighborsIter.toList n.into_iter) =
    some [{ x := 2, y := 1 }, { x := 2, y := 2 }, { x := 1, y := 2 }] := by decide

example :
    (SVec2.neighbors { x := 3, y := 1 } { x := 3, y := 3 }).map
      (fun n => NeighborsIter.toList n.into_iter) =
    some [{ x := 3, y := 2 }, { x := 2, y := 2 }, { x := 2, y := 1 }] := by decide

example :
    (SVec2.neighbors { x := 1, y := 3 } { x := 3, y := 3 }).map
      (fun n => NeighborsIter.toList n.into_iter) =
    some [{ x := 1, y := 2 }, { x := 2, y := 2 }, { x := 2, y := 3 }] := by decide

example :
    (SVec2.neighbors { x := 3, y := 3 } { x := 3, y := 3 }).map
      (fun n => NeighborsIter.toList n.into_iter) =
    some [{ x := 2, y := 2 }, { x := 3, y := 2 }, { x := 2, y := 3 }] := by decide

example : SVec2.neighbors { x := 0, y := 0 } { x := 16, y := 16 } = none := by decide

example :
    ((Grid.new 3 3).set { x := 1, y := 1 } Cell.Alive).state_next { x := 1, y := 1 } =
      Cell.Dead := by decide

example :
    (((Grid.new 3 3).set { x := 1, y := 1 } Cell.Alive).set
      { x := 0, y := 1 } Cell.Alive).state_next { x := 1, y := 1 } = Cell.Dead := by
  decide

example :
    ((((Grid.new 3 3).set { x := 1, y := 1 } Cell.Alive).set
      { x := 0, y := 1 } Cell.Alive).set { x := 2, y := 2 } Cell.Alive).state_next
      { x := 1, y := 1 } = Cell.Alive := by decide

example :
    ((((((Grid.new 3 3).set { x := 1, y := 1 } Cell.Alive).set
      { x := 0, y := 1 } Cell.Alive).set { x := 2, y := 2 } Cell.Alive).set
      { x := 1, y := 1 } Cell.Dead).set { x := 0, y := 0 } Cell.Alive).state_next
      { x := 1, y := 1 } = Cell.Alive := by decide

example :
    (((((((Grid.new 3 3).set { x := 1, y := 1 } Cell.Alive).set
      { x := 0, y := 1 } Cell.Alive).set { x := 2, y := 2 } Cell.Alive).set
      { x := 1, y := 1 } Cell.Dead).set { x := 0, y := 0 } Cell.Alive).set
      { x := 0, y := 2 } Cell.Alive).state_next { x := 1, y := 1 } = Cell.Dead := by
  decide

/-! ## The iterator yields the fields in order -/

/-- The sequence yielded by a `NeighborsIter` started at index 0 is exactly
the `some` fields of the record, in field order. -/
theorem toList_eq_filterMap (n : Neighbors) :
    NeighborsIter.toList n.into_iter = n.fieldList.filterMap id := by
  obtain ⟨tl, t, tr, r, br, b, bl, l⟩ := n
  rcases tl with _ | vtl <;> rcases t with _ | vt <;> rcases tr with _ | vtr <;>
    rcases r with _ | vr <;> rcases br with _ | vbr <;> rcases b with _ | vb <;>
    rcases bl with _ | vbl <;> rcases l with _ | vl <;> rfl

/-- Closed form of `SVec2::neighbors` on an in-bounds position of
representable extents: no translation panics, and each field is present
exactly when the corresponding boundary predicate fails. -/
theorem neighbors_eq (p e : SVec2) (h : SVec2.inBounds e p)
    (hex : e.x ≤ USIZE_MAX) (hey : e.y ≤ USIZE_MAX) :
    SVec2.neighbors p e = some
      { top_left := if p.y = 1 ∨ p.x = 1 then none
          else some { x := p.x - 1, y := p.y - 1 },
        top := if p.y = 1 then none else some { x := p.x, y := p.y - 1 },
        top_right := if p.y = 1 ∨ p.x = e.x then none
          else some { x := p.x + 1, y := p.y - 1 },
        right := if p.x = e.x then none else some { x := p.x + 1, y := p.y },
        bottom_right := if p.y = e.y ∨ p.x = e.x then none
          else some { x := p.x + 1, y := p.y + 1 },
        bottom := if p.y = e.y then none else some { x := p.x, y := p.y + 1 },
        bottom_left := if p.y = e.y ∨ p.x = 1 then none
          else some { x := p.x - 1, y := p.y + 1 },
        left := if p.x = 1 then none else some { x := p.x - 1, y := p.y } } := by
  obtain ⟨h1, h2, h3, h4⟩ := h
  have htl : fieldOpt (p.y = 1 ∨ p.x = 1) (p.up.bind SVec2.left) =
      some (if p.y = 1 ∨ p.x = 1 then none
        else some { x := p.x - 1, y := p.y - 1 }) := by
    by_cases hc : p.y = 1 ∨ p.x = 1
    · simp [fieldOpt, hc]
    · push_neg at hc
      simp [fieldOpt, hc, SVec2.up, SVec2.left,
        show p.y ≠ 0 by omega, show p.x ≠ 0 by omega]
  have ht : fieldOpt (p.y = 1) p.up =
      some (if p.y = 1 then none else some { x := p.x, y := p.y - 1 }) := by
    by_cases hc : p.y = 1
    · simp [fieldOpt, hc]
    · simp [fieldOpt, hc, SVec2.up, show p.y ≠ 0 by omega]
  have htr : fieldOpt (p.y = 1 ∨ p.x = e.x) (p.up.bind SVec2.right) =
      some (if p.y = 1 ∨ p.x = e.x then none
        else some { x := p.x + 1, y := p.y - 1 }) := by
    by_cases hc : p.y = 1 ∨ p.x = e.x
    · simp [fieldOpt, hc]
    · push_neg at hc
      simp [fieldOpt, hc, SVec2.up, SVec2.right,
        show p.y ≠ 0 by omega, show p.x ≠ USIZE_MAX by omega]
  have hr : fieldOpt (p.x = e.x) p.right =
      some (if p.x = e.x then none else some { x := p.x + 1, y := p.y }) := by
    by_cases hc : p.x = e.x
    · simp [fieldOpt, hc]
    · simp [fieldOpt, hc, SVec2.right, show p.x ≠ USIZE_MAX by omega]
  have hbr : fieldOpt (p.y = e.y ∨ p.x = e.x) (p.down.bind SVec2.right) =
      some (if p.y = e.y ∨ p.x = e.x then none
        else some { x := p.x + 1, y := p.y + 1 }) := by
    by_cases hc : p.y = e.y ∨ p.x = e.x
    · simp [fieldOpt, hc]
    · push_neg at hc
      simp [fieldOpt, hc, SVec2.down, SVec2.right,
        show p.y ≠ USIZE_MAX by omega, show p.x ≠ USIZE_MAX by omega]
  have hb : fieldOpt (p.y = e.y) p.down =
      some (if p.y = e.y then none else some { x := p.x, y := p.y + 1 }) := by
    by_cases hc : p.y = e.y
    · simp [fieldOpt, hc]
    · simp [fieldOpt, hc, SVec2.down, show p.y ≠ USIZE_MAX by omega]
  have hbl : fieldOpt (p.y = e.y ∨ p.x = 1) (p.down.bind SVec2.left) =
      some (if p.y = e.y ∨ p.x = 1 then none
        else some { x := p.x - 1, y := p.y + 1 }) := by
    by_cases hc : p.y = e.y ∨ p.x = 1
    · simp [fieldOpt, hc]
    · push_neg at hc
      simp [fieldOpt, hc, SVec2.down, SVec2.left,
        show p.y ≠ USIZE_MAX by omega, show p.x ≠ 0 by omega]
  have hl : fieldOpt (p.x = 1) p.left =
      some (if p.x = 1 then none else some { x := p.x - 1, y := p.y }) := by
    by_cases hc : p.x = 1
    · simp [fieldOpt, hc]
    · simp [fieldOpt, hc, SVec2.left, show p.x ≠ 0 by omega]
  simp only [SVec2.neighbors, htl, ht, htr, hr, hbr, hb, hbl, hl,
    Option.bind_eq_bind, Option.some_bind]
  rfl

/-! ## Claims about the grid -/

/-- C1: for every grid and in-bounds position, `state_next` returns `Dead`
on a live-neighbor count of 0, 1, or ≥ 4, the current cell on a count of
exactly 2, and `Alive` on a count of exactly 3 (neighbors counted over the
extents-(W,H) enumeration, positions outside the grid never counting as
alive). -/
theorem state_next_rule {W H : Nat} (G : Grid W H) (p : Coord)
    (_hx : p.x < W) (_hy : p.y < H) :
    ((G.liveNeighborCount p = 0 ∨ G.liveNeighborCount p = 1 ∨
        4 ≤ G.liveNeighborCount p) → G.state_next p = Cell.Dead) ∧
    (G.liveNeighborCount p = 2 → G.state_next p = G.cellAt p) ∧
    (G.liveNeighborCount p = 3 → G.state_next p = Cell.Alive) := by
  refine ⟨?_, ?_, ?_⟩ <;> intro h <;> unfold Grid.state_next
  · rcases h with h | h | h
    · rw [h]
    · rw [h]
    · obtain ⟨m, hm⟩ : ∃ m, G.liveNeighborCount p = m + 4 :=
        ⟨G.liveNeighborCount p - 4, by omega⟩
      rw [hm]
      rfl
  · rw [h]
  · rw [h]

/-- Witness for C1: the all-dead 3×3 grid at (1,1) has 0 live neighbors,
so `state_next` is `Dead`. -/
theorem state_next_rule_witness :
    (Grid.new 3 3).state_next { x := 1, y := 1 } = Cell.Dead :=
  (state_next_rule (Grid.new 3 3) { x := 1, y := 1 } (by decide) (by decide)).1
    (Or.inl (by decide))

/-- C5: `G.step().generation() == G.generation() + 1` for every grid, and
iterating `step` N times from a newly constructed grid (generation 0)
yields generation exactly N. -/
theorem step_generation :
    (∀ (W H : Nat) (G : Grid W H), (G.step).generation = G.generation + 1) ∧
    (∀ (W H N : Nat), ((Grid.new W H).stepIter N).generation = N) := by
  constructor
  · intro W H G
    rfl
  · intro W H N
    induction N with
    | zero => rfl
    | succ n ih =>
      show ((Grid.new W H).stepIter n).generation + 1 = n + 1
      rw [ih]

/-- C6: `step` updates synchronously — every cell of the returned grid at
an in-bounds position equals `state_next` evaluated on the *pre-step* grid
at that position (so no new cell value is visible to another cell's
computation within the step), and the generation is incremented.  The
receiver itself is unchanged: the embedding is pure, matching Rust's
`&self` receiver with no interior mutability. -/
theorem step_synchronous {W H : Nat} (G : Grid W H) (x y : Nat)
    (_hx : x < W) (_hy : y < H) :
    (G.step).cellAt { x := x, y := y } = G.state_next { x := x, y := y } ∧
    (G.step).generation = G.generation + 1 :=
  ⟨rfl, rfl⟩

/-- Witness for C6: on the all-dead 3×3 grid at (2,0), the stepped grid's
cell is `state_next` of the original. -/
theorem step_synchronous_witness :
    ((Grid.new 3 3).step).cellAt { x := 2, y := 0 } =
      (Grid.new 3 3).state_next { x := 2, y := 0 } ∧
    ((Grid.new 3 3).step).generation = (Grid.new 3 3).generation + 1 :=
  step_synchronous (Grid.new 3 3) 2 0 (by decide) (by decide)

/-- C8: the all-dead grid is a fixed point of `step` up to the generation
counter — after any number of steps from a newly constructed grid, every
cell is still `Dead`. -/
theorem dead_grid_fixed (W H n : Nat) (p : Coord) :
    ((Grid.new W H).stepIter n).cellAt p = Cell.Dead := by
  induction n generalizing p with
  | zero => rfl
  | succ m ih =>
    have h0 : ((Grid.new W H).stepIter m).liveNeighborCount p = 0 := by
      unfold Grid.liveNeighborCount
      rw [List.length_eq_zero, List.filter_eq_nil_iff]
      intro a _
      simp [ih a]
    show ((Grid.new W H).stepIter m).state_next p = Cell.Dead
    unfold Grid.state_next
    rw [h0]

/-- C9: cell negation is an involution, hence toggling an in-bounds
position twice (`toggle(pos)` being `set(pos, negate(cell_at(pos)))`)
restores the grid's original cell state at that position. -/
theorem toggle_involution :
    (∀ c : Cell, Cell.not (Cell.not c) = c) ∧
    (∀ (W H : Nat) (G : Grid W H) (pos : Coord), pos.x < W → pos.y < H →
      ((G.toggle pos).toggle pos).cellAt pos = G.cellAt pos) := by
  constructor
  · intro c
    cases c <;> rfl
  · intro W H G pos hx hy
    simp only [Grid.toggle, Grid.set, Grid.cellAt, and_self, if_true, if_pos]
    cases G.cells pos.y pos.x <;> rfl

/-- Witness for C9: toggling (0,1) twice on the all-dead 2×2 grid restores
the dead cell there. -/
theorem toggle_involution_witness :
    (((Grid.new 2 2).toggle { x := 0, y := 1 }).toggle { x := 0, y := 1 }).cellAt
      { x := 0, y := 1 } = (Grid.new 2 2).cellAt { x := 0, y := 1 } :=
  toggle_involution.2 2 2 (Grid.new 2 2) { x := 0, y := 1 } (by decide) (by decide)

/-! ## Claims about the coordinate type (`src/math.rs`) -/

/-- C7: each unit translation panics in debug builds (modelled as `none`)
exactly when the result would leave the representable `usize` domain —
`left()` at `x = 0`, `up()` at `y = 0`, `right()` at `x = usize::MAX`,
`down()` at `y = usize::MAX` — and a successful call returns the exact,
non-wrapped unit translate. -/
theorem translation_bounds (v : SVec2) :
    (v.x = 0 → v.left = none) ∧
    (∀ r, v.left = some r → r.x + 1 = v.x ∧ r.y = v.y) ∧
    (v.y = 0 → v.up = none) ∧
    (∀ r, v.up = some r → r.y + 1 = v.y ∧ r.x = v.x) ∧
    (v.x = USIZE_MAX → v.right = none) ∧
    (v.x ≤ USIZE_MAX → ∀ r, v.right = some r →
      r.x = v.x + 1 ∧ r.y = v.y ∧ r.x ≤ USIZE_MAX) ∧
    (v.y = USIZE_MAX → v.down = none) ∧
    (v.y ≤ USIZE_MAX → ∀ r, v.down = some r →
      r.y = v.y + 1 ∧ r.x = v.x ∧ r.y ≤ USIZE_MAX) := by
  refine ⟨?_, ?_, ?_, ?_, ?_, ?_, ?_, ?_⟩
  · intro h
    simp [SVec2.left, h]
  · intro r hr
    unfold SVec2.left at hr
    by_cases h : v.x = 0
    · simp [h] at hr
    · simp only [h, if_false] at hr
      obtain rfl : ({ x := v.x - 1, y := v.y } : SVec2) = r := Option.some.inj hr
      refine ⟨?_, rfl⟩
      show v.x - 1 + 1 = v.x
      omega
  · intro h
    simp [SVec2.up, h]
  · intro r hr
    unfold SVec2.up at hr
    by_cases h : v.y = 0
    · simp [h] at hr
    · simp only [h, if_false] at hr
      obtain rfl : ({ x := v.x, y := v.y - 1 } : SVec2) = r := Option.some.inj hr
      refine ⟨?_, rfl⟩
      show v.y - 1 + 1 = v.y
      omega
  · intro h
    simp [SVec2.right, h]
  · intro hle r hr
    unfold SVec2.right at hr
    by_cases h : v.x = USIZE_MAX
    · simp [h] at hr
    · simp only [h, if_false] at hr
      obtain rfl : ({ x := v.x + 1, y := v.y } : SVec2) = r := Option.some.inj hr
      refine ⟨rfl, rfl, ?_⟩
      show v.x + 1 ≤ USIZE_MAX
      omega
  · intro h
    simp [SVec2.down, h]
  · intro hle r hr
    unfold SVec2.down at hr
    by_cases h : v.y = USIZE_MAX
    · simp [h] at hr
    · simp only [h, if_false] at hr
      obtain rfl : ({ x := v.x, y := v.y + 1 } : SVec2) = r := Option.some.inj hr
      refine ⟨rfl, rfl, ?_⟩
      show v.y + 1 ≤ USIZE_MAX
      omega

/-- Witness for C7: at (0,0) both `left` and `up` panic; at (5,7) every
translation succeeds with the exact translate. -/
theorem translation_bounds_witness :
    (SVec2.left { x := 0, y := 0 } = none) ∧
    (SVec2.up { x := 0, y := 0 } = none) ∧
    ({ x := 4, y := 7 } : SVec2).x + 1 = ({ x := 5, y := 7 } : SVec2).x ∧
    (({ x := 6, y := 7 } : SVec2).x = ({ x := 5, y := 7 } : SVec2).x + 1 ∧
      ({ x := 6, y := 7 } : SVec2).y = ({ x := 5, y := 7 } : SVec2).y ∧
      ({ x := 6, y := 7 } : SVec2).x ≤ USIZE_MAX) :=
  ⟨(translation_bounds { x := 0, y := 0 }).1 rfl,
   (translation_bounds { x := 0, y := 0 }).2.2.1 rfl,
   ((translation_bounds { x := 5, y := 7 }).2.1 { x := 4, y := 7 } (by decide)).1,
   (translation_bounds { x := 5, y := 7 }).2.2.2.2.2.1 (by decide)
     { x := 6, y := 7 } (by decide)⟩

/-- `decide` of two complementary propositions. -/
theorem decide_eq_not_decide (A B : Prop) [Decidable A] [Decidable B]
    (h : A ↔ ¬B) : decide A = !decide B := by
  by_cases hb : B <;> simp [hb, h]

/-- A guarded option contributes 1 to the length of a `filterMap id`
exactly when its guard lets it through. -/
theorem length_filterMap_guard (c : Prop) [Decidable c] (v : SVec2)
    (rest : List (Option SVec2)) :
    (List.filterMap id ((if c then none else some v) :: rest)).length =
      (if c then 0 else 1) + (List.filterMap id rest).length := by
  by_cases h : c <;> simp [h, Nat.add_comm]

/-- One step of matching a guarded option against a filtered list. -/
theorem filterMap_guard_cons {c : Prop} [Decidable c] {v : SVec2}
    {rest : List (Option SVec2)} {P : SVec2 → Bool} {l : List SVec2}
    (hc : P v = !decide c)
    (hrest : List.filterMap id rest = List.filter P l) :
    List.filterMap id ((if c then none else some v) :: rest) =
      List.filter P (v :: l) := by
  by_cases hcc : c <;> simp [hcc, List.filterMap_cons, List.filter_cons, hc, hrest]

/-- C3: for an in-bounds position, the neighbor enumeration yields exactly
the in-bounds members of the eight compass translations, in the fixed
order top-left, top, top-right, right, bottom-right, bottom, bottom-left,
left, skipping every out-of-bounds direction (no placeholder is emitted).
Re-enumeration is deterministic: the sequence is a function of the
position and extents alone (`into_iter` restarts at index 0 on the copied
`Neighbors` value). -/
theorem neighbors_iter_order (p e : SVec2) (h : SVec2.inBounds e p)
    (hex : e.x ≤ USIZE_MAX) (hey : e.y ≤ USIZE_MAX) :
    ∃ n, SVec2.neighbors p e = some n ∧
      NeighborsIter.toList n.into_iter =
        (compassList p).filter (fun q => decide (SVec2.inBounds e q)) := by
  obtain ⟨h1, h2, h3, h4⟩ := h
  refine ⟨_, neighbors_eq p e ⟨h1, h2, h3, h4⟩ hex hey, ?_⟩
  rw [toList_eq_filterMap]
  dsimp only [Neighbors.fieldList, compassList]
  refine filterMap_guard_cons ?_ (filterMap_guard_cons ?_ (filterMap_guard_cons ?_
    (filterMap_guard_cons ?_ (filterMap_guard_cons ?_ (filterMap_guard_cons ?_
    (filterMap_guard_cons ?_ (filterMap_guard_cons ?_ rfl))))))) <;>
    refine decide_eq_not_decide _ _ ?_ <;> dsimp only [SVec2.inBounds] <;> omega

/-- Witness for C3: the top-left corner of a 3×3 grid yields exactly the
in-bounds compass translations, in order. -/
theorem neighbors_iter_order_witness :
    ∃ n, SVec2.neighbors { x := 1, y := 1 } { x := 3, y := 3 } = some n ∧
      NeighborsIter.toList n.into_iter =
        (compassList { x := 1, y := 1 }).filter
          (fun q => decide (SVec2.inBounds { x := 3, y := 3 } q)) :=
  neighbors_iter_order { x := 1, y := 1 } { x := 3, y := 3 }
    (by decide) (by decide) (by decide)

/-- Counterexample to C2 as stated: with the nonzero extents (1,1), the
position (1,1) is in bounds and is a corner (both coordinates lie on a
boundary), yet its neighbor enumeration yields 0 positions, not 3. -/
theorem neighbors_boundary_counts_cex :
    SVec2.inBounds { x := 1, y := 1 } { x := 1, y := 1 } ∧
    ((SVec2.neighbors { x := 1, y := 1 } { x := 1, y := 1 }).map
      (fun n => (NeighborsIter.toList n.into_iter).length) = some 0) ∧
    ¬((SVec2.neighbors { x := 1, y := 1 } { x := 1, y := 1 }).map
      (fun n => (NeighborsIter.toList n.into_iter).length) = some 3) := by
  refine ⟨by decide, by decide, by decide⟩

set_option maxHeartbeats 2000000 in
/-- C2 amended (restricted to extents of at least 2 in each dimension; a
1-wide or 1-tall grid clips opposite directions at once and yields fewer
neighbors): an in-bounds position on representable extents with
`e.x, e.y ≥ 2` yields exactly 3 neighbors at a corner (both coordinates on
a boundary), exactly 5 on exactly one boundary edge, and exactly 8 in the
interior. -/
theorem neighbors_boundary_counts (p e : SVec2) (h : SVec2.inBounds e p)
    (hex : e.x ≤ USIZE_MAX) (hey : e.y ≤ USIZE_MAX)
    (hW : 2 ≤ e.x) (hH : 2 ≤ e.y) :
    ∃ n, SVec2.neighbors p e = some n ∧
      (((p.x = 1 ∨ p.x = e.x) ∧ (p.y = 1 ∨ p.y = e.y)) →
        (NeighborsIter.toList n.into_iter).length = 3) ∧
      ((((p.x = 1 ∨ p.x = e.x) ∧ ¬(p.y = 1 ∨ p.y = e.y)) ∨
        (¬(p.x = 1 ∨ p.x = e.x) ∧ (p.y = 1 ∨ p.y = e.y))) →
        (NeighborsIter.toList n.into_iter).length = 5) ∧
      ((¬(p.x = 1 ∨ p.x = e.x) ∧ ¬(p.y = 1 ∨ p.y = e.y)) →
        (NeighborsIter.toList n.into_iter).length = 8) := by
  obtain ⟨h1, h2, h3, h4⟩ := h
  refine ⟨_, neighbors_eq p e ⟨h1, h2, h3, h4⟩ hex hey, ?_, ?_, ?_⟩ <;>
    intro hcat <;> rw [toList_eq_filterMap] <;>
    dsimp only [Neighbors.fieldList] <;>
    rw [length_filterMap_guard, length_filterMap_guard, length_filterMap_guard,
      length_filterMap_guard, length_filterMap_guard, length_filterMap_guard,
      length_filterMap_guard, length_filterMap_guard] <;>
    simp only [List.filterMap_nil, List.length_nil] <;>
    split_ifs <;> omega

/-- Witness for C2 (amended): on a 4×5 grid, the corner (1,1) has 3
neighbors, the edge position (1,3) has 5, and the interior (2,2) has 8. -/
theorem neighbors_boundary_counts_witness :
    (∃ n, SVec2.neighbors { x := 1, y := 1 } { x := 4, y := 5 } = some n ∧
      (NeighborsIter.toList n.into_iter).length = 3) ∧
    (∃ n, SVec2.neighbors { x := 1, y := 3 } { x := 4, y := 5 } = some n ∧
      (NeighborsIter.toList n.into_iter).length = 5) ∧
    (∃ n, SVec2.neighbors { x := 2, y := 2 } { x := 4, y := 5 } = some n ∧
      (NeighborsIter.toList n.into_iter).length = 8) := by
  refine ⟨?_, ?_, ?_⟩
  · obtain ⟨n, hn, hc, _, _⟩ := neighbors_boundary_counts { x := 1, y := 1 }
      { x := 4, y := 5 } (by decide) (by decide) (by decide) (by decide) (by decide)
    exact ⟨n, hn, hc (by decide)⟩
  · obtain ⟨n, hn, _, hc, _⟩ := neighbors_boundary_counts { x := 1, y := 3 }
      { x := 4, y := 5 } (by decide) (by decide) (by decide) (by decide) (by decide)
    exact ⟨n, hn, hc (by decide)⟩
  · obtain ⟨n, hn, _, _, hc⟩ := neighbors_boundary_counts { x := 2, y := 2 }
      { x := 4, y := 5 } (by decide) (by decide) (by decide) (by decide) (by decide)
    exact ⟨n, hn, hc (by decide)⟩

/-- C10: the coordinate constructors enforce strictly positive components:
`svec2 x y` panics (`none`) exactly when `x = 0` or `y = 0`, a successful
`svec2` returns the components unchanged (hence ≥ 1), and `SVec2::new`
(whose arguments are `NonZeroUsize`) always yields components ≥ 1 — the
constructed coordinate domain is 1-based. -/
theorem svec2_nonzero :
    (∀ x y : Nat, svec2 x y = none ↔ x = 0 ∨ y = 0) ∧
    (∀ (x y : Nat) (v : SVec2), svec2 x y = some v →
      1 ≤ v.x ∧ 1 ≤ v.y ∧ v.x = x ∧ v.y = y) ∧
    (∀ a b : NonZeroUsize, 1 ≤ (SVec2.new a b).x ∧ 1 ≤ (SVec2.new a b).y) := by
  refine ⟨?_, ?_, ?_⟩
  · intro x y
    unfold svec2 NonZeroUsize.new
    by_cases hx : 0 < x <;> by_cases hy : 0 < y <;>
      simp [hx, hy] <;> omega
  · intro x y v hv
    unfold svec2 NonZeroUsize.new at hv
    by_cases hx : 0 < x <;> by_cases hy : 0 < y <;> simp [hx, hy] at hv
    obtain rfl : SVec2.new ⟨x, hx⟩ ⟨y, hy⟩ = v := hv
    exact ⟨hx, hy, rfl, rfl⟩
  · intro a b
    exact ⟨a.2, b.2⟩

/-- Witness for C10: `svec2 0 5` panics, `svec2 2 3` yields (2,3) with both
components ≥ 1, and `SVec2::new 4 9` has positive components. -/
theorem svec2_nonzero_witness :
    svec2 0 5 = none ∧
    (1 ≤ ({ x := 2, y := 3 } : SVec2).x ∧ 1 ≤ ({ x := 2, y := 3 } : SVec2).y ∧
      ({ x := 2, y := 3 } : SVec2).x = 2 ∧ ({ x := 2, y := 3 } : SVec2).y = 3) ∧
    (1 ≤ (SVec2.new ⟨4, by decide⟩ ⟨9, by decide⟩).x ∧
      1 ≤ (SVec2.new ⟨4, by decide⟩ ⟨9, by decide⟩).y) :=
  ⟨(svec2_nonzero.1 0 5).mpr (Or.inl rfl),
   svec2_nonzero.2.1 2 3 { x := 2, y := 3 } (by decide),
   svec2_nonzero.2.2 ⟨4, by decide⟩ ⟨9, by decide⟩⟩

/-- Counterexample to C4 as stated: position (0,0) cannot even be
constructed (`svec2 0 0` panics), and the neighbor enumeration of the raw
pair (0,0) with extents (16,16) panics (underflow in `up()` while
computing the top-left neighbor, since (0,0) is not flagged as a boundary
position by the 1-based checks) instead of yielding 3 neighbors.  The
coordinate domain of `SVec2` is 1-based. -/
theorem neighbors_examples_cex :
    svec2 0 0 = none ∧
    SVec2.neighbors { x := 0, y := 0 } { x := 16, y := 16 } = none ∧
    SVec2.neighbors { x := 15, y := 0 } { x := 16, y := 16 } = none := by
  refine ⟨by decide, by decide, by decide⟩

/-- C4 amended (positions shifted to the code's 1-based domain, as in the
repository's own tests): with extents (16,16) the top-left corner (1,1)
yields exactly the right, bottom-right and bottom neighbors; the top-right
corner (16,1) yields exactly bottom, bottom-left, left; and the interior
position (2,2) with extents (3,3) yields all 8 neighbors in the exact
order (1,1),(2,1),(3,1),(3,2),(3,3),(2,3),(1,3),(1,2). -/
theorem neighbors_examples :
    (SVec2.neighbors { x := 1, y := 1 } { x := 16, y := 16 }).map
      (fun n => NeighborsIter.toList n.into_iter) =
      some [{ x := 2, y := 1 }, { x := 2, y := 2 }, { x := 1, y := 2 }] ∧
    (SVec2.neighbors { x := 16, y := 1 } { x := 16, y := 16 }).map
      (fun n => NeighborsIter.toList n.into_iter) =
      some [{ x := 16, y := 2 }, { x := 15, y := 2 }, { x := 15, y := 1 }] ∧
    (SVec2.neighbors { x := 2, y := 2 } { x := 3, y := 3 }).map
      (fun n => NeighborsIter.toList n.into_iter) =
      some [{ x := 1, y := 1 }, { x := 2, y := 1 }, { x := 3, y := 1 },
            { x := 3, y := 2 }, { x := 3, y := 3 }, { x := 2, y := 3 },
            { x := 1, y := 3 }, { x := 1, y := 2 }] := by
  refine ⟨by decide, by decide, by decide⟩

end Lifeless
